import Mathlib

/-!
Verification of the TechCorp multi-agent support system against its
specification.

The development shallowly embeds the Python code of the repository:

* `src/agents/orchestrator.py` — the intent-classification output parser
  (`IntentOutputParser`) and the routing decision (`OrchestratorAgent`);
* `src/agents/evaluator.py` — the evaluation output parser
  (`EvaluationOutputParser`);
* `src/schemas.py` — the `QueryResult` result-shaping layer;
* `src/multi_agent_system.py` — `MultiAgentSystem.process_query`.

Modeling conventions:

* Python `str` is Lean `String`; the handful of `str` methods the code uses
  (`strip`, `lower`, `split`, `startswith`, `in`) are given executable
  structural-recursive models below (`pyStrip`, `pyLower`, `pySplit`, …),
  restricted to the ASCII fragment actually exercised by the code
  (`lower` maps `A`–`Z` to `a`–`z`; `strip` removes the ASCII whitespace
  characters).
* Python `float` values are modeled as rationals (`ℚ`).  The conversion
  `float(s)` is modeled by `pyFloat?` on the finite decimal grammar
  (optional sign, digits, optional fraction, optional exponent); the
  special spellings `inf`/`nan` and underscore digit separators, and
  binary-floating-point rounding, are not modeled — no claim depends on
  them.  `int(s)` is modeled by `pyInt?` likewise.
* Code that raises is modeled with `Except PyErr`; a `try/except` block is
  a `match` on the `Except` value.
* The language-model calls and the retrieval chains are free oracle
  parameters (`String → String`, …): the claims quantify over their
  behavior.
-/

/-! ### Python string primitives -/

/-- ASCII whitespace stripped by Python `str.strip()`:
space, tab, newline, carriage return, vertical tab, form feed. -/
def pyWhitespace (c : Char) : Bool :=
  c = ' ' || c = '\t' || c = '\n' || c = '\r' ||
    c = Char.ofNat 11 || c = Char.ofNat 12

/-- Drop leading Python whitespace from a character list. -/
def dropLeadingWs : List Char → List Char
  | [] => []
  | c :: cs => if pyWhitespace c then dropLeadingWs cs else c :: cs

/-- Python `s.strip()` (ASCII fragment). -/
def pyStrip (s : String) : String :=
  String.mk (((dropLeadingWs s.data).reverse |> dropLeadingWs).reverse)

/-- Python `s.lower()` (ASCII fragment), per character `Char.toLower`. -/
def pyLower (s : String) : String :=
  String.mk (s.data.map Char.toLower)

/-- Models `listStarts pat cs` is true iff `pat` is an initial segment of `cs`. -/
def listStarts : List Char → List Char → Bool
  | [], _ => true
  | _ :: _, [] => false
  | p :: ps, c :: cs => p = c && listStarts ps cs

/-- Python `s.startswith(pat)`. -/
def pyStartswith (s pat : String) : Bool :=
  listStarts pat.data s.data

/-- Python `c in s` for a single character `c`. -/
def hasChar (c : Char) (s : String) : Bool :=
  s.data.any (fun d => d = c)

/-- Split a character list at every occurrence of `sep`
(Python `str.split(sep)` with a one-character separator:
the empty list of characters yields `[[]]`). -/
def splitListOn (sep : Char) : List Char → List (List Char)
  | [] => [[]]
  | c :: cs =>
      match splitListOn sep cs with
      | [] => [[]]
      | h :: t => if c = sep then [] :: h :: t else (c :: h) :: t

/-- Python `s.split(sep)` for a one-character separator. -/
def pySplit (s : String) (sep : Char) : List String :=
  (splitListOn sep s.data).map String.mk

/-- Join character lists with a separator (inverse of `splitListOn`). -/
def joinWith (sep : Char) : List (List Char) → List Char
  | [] => []
  | [x] => x
  | x :: y :: t => x ++ sep :: joinWith sep (y :: t)

/-- Python `line.split(":", 1)[1]`: everything after the first colon
(the empty string when there is no colon; the call sites guard on
`":" in line`). -/
def afterFirstColon (s : String) : String :=
  String.mk (joinWith ':' (splitListOn ':' s.data).tail)

/-! ### Python number conversions -/

def isDigitChar (c : Char) : Bool := '0' ≤ c && c ≤ '9'

def allDigits (cs : List Char) : Bool := !cs.isEmpty && cs.all isDigitChar

def natOfDigits (cs : List Char) : ℕ :=
  cs.foldl (fun n c => 10 * n + (c.toNat - 48)) 0

/-- Python `int(s)` on sign + decimal digits (underscore separators and
non-ASCII digits are not modeled); `none` models the `ValueError`. -/
def pyInt? (s : String) : Option ℤ :=
  match (pyStrip s).data with
  | '+' :: cs => if allDigits cs then some (natOfDigits cs : ℤ) else none
  | '-' :: cs => if allDigits cs then some (-(natOfDigits cs : ℤ)) else none
  | cs => if allDigits cs then some (natOfDigits cs : ℤ) else none

/-- Unsigned decimal mantissa `ddd`, `ddd.ddd`, `ddd.`, `.ddd`, returned as
numerator and power-of-ten denominator exponent. -/
def pyMantissa? (cs : List Char) : Option (ℕ × ℕ) :=
  match splitListOn '.' cs with
  | [w] => if allDigits w then some (natOfDigits w, 0) else none
  | [w, f] =>
      if w.isEmpty && f.isEmpty then none
      else if w.all isDigitChar && f.all isDigitChar then
        some (natOfDigits w * 10 ^ f.length + natOfDigits f, f.length)
      else none
  | _ => none

/-- Optionally signed decimal exponent. -/
def pyExp? (cs : List Char) : Option ℤ :=
  match cs with
  | '+' :: ds => if allDigits ds then some (natOfDigits ds : ℤ) else none
  | '-' :: ds => if allDigits ds then some (-(natOfDigits ds : ℤ)) else none
  | ds => if allDigits ds then some (natOfDigits ds : ℤ) else none

/-- Scale a mantissa `num / 10 ^ tens` by `10 ^ e`. -/
def applyExp (num : ℕ) (tens : ℕ) (e : ℤ) : ℚ :=
  match e with
  | .ofNat k => mkRat (num * 10 ^ k) (10 ^ tens)
  | .negSucc k => mkRat num (10 ^ tens * 10 ^ (k + 1))

/-- Unsigned part of the Python `float` grammar: mantissa with optional
`e`-exponent. -/
def pyUnsignedFloat? (cs : List Char) : Option ℚ :=
  match splitListOn 'e' cs with
  | [m] => (pyMantissa? m).map (fun p => mkRat p.1 (10 ^ p.2))
  | [m, ex] =>
      match pyMantissa? m, pyExp? ex with
      | some p, some e => some (applyExp p.1 p.2 e)
      | _, _ => none
  | _ => none

/-- Python `float(s)` on the finite decimal grammar (`inf`/`nan`/underscore
separators are not modeled); `none` models the `ValueError`. -/
def pyFloat? (s : String) : Option ℚ :=
  match (pyLower (pyStrip s)).data with
  | '+' :: cs => pyUnsignedFloat? cs
  | '-' :: cs => (pyUnsignedFloat? cs).map Neg.neg
  | cs => pyUnsignedFloat? cs

/-! ### Python exceptions -/

/-- The exception kinds relevant to the embedded code. -/
inductive PyErr where
  | validationError
  | valueError
  | indexError
  | typeError
deriving DecidableEq, Repr

/-- Rendering used where the code interpolates `str(e)` into a message. -/
def PyErr.message : PyErr → String
  | .validationError => "ValidationError"
  | .valueError => "ValueError"
  | .indexError => "IndexError"
  | .typeError => "TypeError"

/-! ### src/agents/orchestrator.py — IntentOutputParser -/

/-- The pydantic model `IntentClassification`; `intent` is declared
`Literal["hr", "tech", "finance", "general"]` and validated at
construction. -/
structure IntentClassification where
  intent : String
  confidence : ℚ
  reasoning : String
deriving DecidableEq, Repr

/-- The closed set of the `Literal` type of the `intent` field. -/
def intentLiterals : List String := ["hr", "tech", "finance", "general"]

namespace IntentOutputParser

/-- Models `_extract_field`: first line whose lowercasing starts with `pfx`
(else `""`); if it has a colon, the text after the first colon, stripped
and lowercased, else the default. -/
def extract_field (lines : List String) (pfx dflt : String) : String :=
  let line := (lines.find? (fun l => pyStartswith (pyLower l) pfx)).getD ""
  if hasChar ':' line then pyLower (pyStrip (afterFirstColon line)) else dflt

/-- Models `_extract_confidence`: the stripped text after the colon of the first
`confidence:` line (else the literal `"0.5"`), converted by `float`,
with `0.5` on `ValueError`. -/
def extract_confidence (lines : List String) : ℚ :=
  let confidence_line :=
    (lines.find? (fun l => pyStartswith (pyLower l) "confidence:")).getD ""
  let confidence_str :=
    if hasChar ':' confidence_line then pyStrip (afterFirstColon confidence_line)
    else "0.5"
  match pyFloat? confidence_str with
  | some q => q
  | none => mkRat 1 2

/-- pydantic construction `IntentClassification(intent=…, …)`: raises
`ValidationError` when `intent` is outside the `Literal` set. -/
def validateIntent (intent : String) (confidence : ℚ) (reasoning : String) :
    Except PyErr IntentClassification :=
  if intent ∈ intentLiterals then .ok ⟨intent, confidence, reasoning⟩
  else .error .validationError

/-- Models the line list of `_parse_classification_text`: the stripped text
split on newlines. -/
def classificationLines (text : String) : List String :=
  pySplit (pyStrip text) '\n'

/-- The `try:` body of `_parse_classification_text`, with the exception
it can raise (the pydantic validation) propagated. -/
def classification_try_body (text : String) :
    Except PyErr IntentClassification :=
  let lines := classificationLines text
  let intent := extract_field lines "intent:" "general"
  let confidence := extract_confidence lines
  let reasoning := extract_field lines "reasoning:" "Unable to determine reasoning"
  validateIntent intent confidence reasoning

/-- The record built in the `except Exception:` branch. -/
def fallbackClassification : IntentClassification :=
  ⟨"general", mkRat 1 10, "Failed to parse response"⟩

/-- Models `_parse_classification_text` (= `IntentOutputParser.parse`): the `try:`
body with `except Exception:` returning the fallback record. -/
def parse_classification_text (text : String) : IntentClassification :=
  match classification_try_body text with
  | .ok c => c
  | .error _ => fallbackClassification

/-- Models `_parse_classification_text` with uncaught exceptions propagated to the
caller; `except Exception:` catches every exception, so every branch is
`.ok`. -/
def parse_classification_textE (text : String) :
    Except PyErr IntentClassification :=
  match classification_try_body text with
  | .ok c => .ok c
  | .error _ => .ok fallbackClassification

end IntentOutputParser

/-- The intent value the parser extracts from the text (before pydantic
validation): stripped and lowercased after-colon text of the first
`intent:` line, defaulting to `"general"` on absence. -/
def extracted_intent (text : String) : String :=
  IntentOutputParser.extract_field
    (IntentOutputParser.classificationLines text) "intent:" "general"

/-- The reasoning value the parser extracts from the text. -/
def extracted_reasoning (text : String) : String :=
  IntentOutputParser.extract_field
    (IntentOutputParser.classificationLines text) "reasoning:"
    "Unable to determine reasoning"

/-- The confidence value the parser extracts from the text. -/
def extracted_confidence (text : String) : ℚ :=
  IntentOutputParser.extract_confidence
    (IntentOutputParser.classificationLines text)

/-- The local `confidence_str` of `_extract_confidence`: the stripped
after-colon text of the first `confidence:` line, or the literal `"0.5"`
when that line is absent. -/
def confidence_str_of (text : String) : String :=
  let lines := IntentOutputParser.classificationLines text
  let confidence_line :=
    (lines.find? (fun l => pyStartswith (pyLower l) "confidence:")).getD ""
  if hasChar ':' confidence_line then pyStrip (afterFirstColon confidence_line)
  else "0.5"

/-! ### src/agents/evaluator.py — EvaluationOutputParser -/

/-- The pydantic model `EvaluationResult` of `evaluator.py`; all four
score fields are plain `int`s (no range validation). -/
structure EvaluationResult where
  relevance_score : ℤ
  completeness_score : ℤ
  accuracy_score : ℤ
  overall_score : ℤ
  reasoning : String
deriving DecidableEq, Repr

namespace EvaluationOutputParser

/-- The score dictionary of `_extract_scores` (keys
`relevance_score`, …, `overall_score`). -/
structure Scores where
  relevance_score : ℤ
  completeness_score : ℤ
  accuracy_score : ℤ
  overall_score : ℤ
deriving DecidableEq, Repr

/-- The iteration order of the inner loop of `_extract_scores`. -/
def score_types : List String := ["relevance", "completeness", "accuracy", "overall"]

/-- Models the assignment of a parsed value to the score entry named by the
current score type. -/
def setScore (s : Scores) (t : String) (v : ℤ) : Scores :=
  if t = "relevance" then { s with relevance_score := v }
  else if t = "completeness" then { s with completeness_score := v }
  else if t = "accuracy" then { s with accuracy_score := v }
  else if t = "overall" then { s with overall_score := v }
  else s

/-- The initial score dictionary: every score defaults to 5. -/
def initScores : Scores := ⟨5, 5, 5, 5⟩

/-- One iteration of the outer loop of `_extract_scores`: for each score
type whose label starts the (lowercased) line, parse the after-colon text
as `int` and store it; `ValueError` is caught and ignored (`pass`). -/
def updateLine (s : Scores) (line : String) : Scores :=
  score_types.foldl
    (fun acc t =>
      if pyStartswith (pyLower line) (t ++ ":") then
        match pyInt? (pyStrip (afterFirstColon line)) with
        | some v => setScore acc t v
        | none => acc
      else acc)
    s

/-- Models `_extract_scores`. -/
def extract_scores (lines : List String) : Scores :=
  lines.foldl updateLine initScores

/-- Models `_extract_reasoning`: after-colon text of the first `reasoning:` line,
stripped (not lowercased), defaulting on absence. -/
def extract_reasoning (lines : List String) : String :=
  match lines.find? (fun l => pyStartswith (pyLower l) "reasoning:") with
  | some line => pyStrip (afterFirstColon line)
  | none => "No reasoning provided"

/-- Models the line list of `_parse_evaluation_text`: split on newlines,
strip each line, drop the empty ones. -/
def evaluationLines (text : String) : List String :=
  ((pySplit (pyStrip text) '\n').map pyStrip).filter (fun l => !l.isEmpty)

/-- Models `_default_evaluation`. -/
def default_evaluation (reasoning : String) : EvaluationResult :=
  ⟨5, 5, 5, 5, reasoning⟩

/-- The `try:` body of `_parse_evaluation_text`.  Its only fallible
operation, `int(...)`, is already caught inside `_extract_scores`, and the
pydantic construction cannot fail (all fields are well-typed), so the body
never raises. -/
def evaluation_try_body (text : String) : Except PyErr EvaluationResult :=
  let lines := evaluationLines text
  let scores := extract_scores lines
  let reasoning := extract_reasoning lines
  .ok ⟨scores.relevance_score, scores.completeness_score,
       scores.accuracy_score, scores.overall_score, reasoning⟩

/-- Models `_parse_evaluation_text` with uncaught exceptions propagated: only
`ValueError` and `IndexError` are caught (yielding the default
evaluation); any other exception kind would escape. -/
def parse_evaluation_textE (text : String) : Except PyErr EvaluationResult :=
  match evaluation_try_body text with
  | .ok r => .ok r
  | .error .valueError =>
      .ok (default_evaluation ("Failed to parse evaluation: " ++ PyErr.message .valueError))
  | .error .indexError =>
      .ok (default_evaluation ("Failed to parse evaluation: " ++ PyErr.message .indexError))
  | .error e => .error e

/-- Models `_parse_evaluation_text` (= `EvaluationOutputParser.parse`) as the
total function it is proved to be (`evaluation_try_body` never errors, so
the `except` branch below is dead code). -/
def parse_evaluation_text (text : String) : EvaluationResult :=
  match evaluation_try_body text with
  | .ok r => r
  | .error e => default_evaluation ("Failed to parse evaluation: " ++ PyErr.message e)

/-- The successfully parsed integers of the lines labeled by score type
`t`, in line order (specification-side description used to characterize
`extract_scores`). -/
def labeledInts (t : String) (lines : List String) : List ℤ :=
  lines.filterMap
    (fun l =>
      if pyStartswith (pyLower l) (t ++ ":") then
        pyInt? (pyStrip (afterFirstColon l))
      else none)

end EvaluationOutputParser

/-! ### src/schemas.py — result shaping -/

/-- Dynamically typed Python values (`Any`), as stored in the
`evaluation: Optional[Dict[str, Any]]` field of `QueryResult` and in the
raw agent response dictionaries. -/
inductive PyVal where
  | pynone
  | pybool (b : Bool)
  | pyint (i : ℤ)
  | pyfloat (q : ℚ)
  | pystr (s : String)
  | pylist (xs : List PyVal)
  | pydict (kvs : List (String × PyVal))

/-- Lookup in a string-keyed Python dictionary. -/
def pyDictGet (kvs : List (String × PyVal)) (k : String) : Option PyVal :=
  (kvs.find? (fun p => p.1 = k)).map Prod.snd

/-- Is the list-membership comparison `element == k` true for a string
`k`?  (In Python, values of other types never compare equal to a `str`.) -/
def pyEqStr : PyVal → String → Bool
  | .pystr s, k => s = k
  | _, _ => false

/-- Does `pat` occur as a contiguous sublist of the second list?
(Python substring test `pat in s`.) -/
def listHasSub (pat : List Char) : List Char → Bool
  | [] => pat.isEmpty
  | c :: cs => listStarts pat (c :: cs) || listHasSub pat cs

/-- Python `k in v` for a string key `k`: key membership for dictionaries,
substring for strings, element equality for lists; a `TypeError` for
non-container values (this is exactly what `"overall_score" in None`
raises). -/
def pyContainsKey (v : PyVal) (k : String) : Except PyErr Bool :=
  match v with
  | .pydict kvs => .ok (kvs.any (fun p => p.1 = k))
  | .pystr s => .ok (listHasSub k.data s.data)
  | .pylist xs => .ok (xs.any (fun x => pyEqStr x k))
  | _ => .error .typeError

/-- Models `SourceDocument` of `schemas.py`. -/
structure SourceDocument where
  filename : String
  content : String := ""
  metadata : List (String × PyVal) := []

/-- Models `RoutingInfo` of `schemas.py`. -/
structure RoutingInfo where
  intent : String
  confidence : ℚ := 0
  reasoning : String := ""
  route_to : String := ""

/-- Models `ResponseInfo` of `schemas.py`. -/
structure ResponseInfo where
  agent : String
  answer : String := ""
  source_documents : List SourceDocument := []

/-- Models `QueryResult` of `schemas.py`. -/
structure QueryResult where
  query : String
  routing : Option RoutingInfo := none
  response : Option ResponseInfo := none
  evaluation : Option (List (String × PyVal)) := none

namespace QueryResult

/-- Models `is_successful`: routing present, response present, truthy answer. -/
def is_successful (r : QueryResult) : Bool :=
  match r.routing, r.response with
  | some _, some resp => !resp.answer.isEmpty
  | _, _ => false

/-- Models `intent` accessor. -/
def intent (r : QueryResult) : String :=
  match r.routing with
  | some ri => ri.intent
  | none => "unknown"

/-- Models `confidence` accessor. -/
def confidence (r : QueryResult) : ℚ :=
  match r.routing with
  | some ri => ri.confidence
  | none => 0

/-- Models `agent` accessor. -/
def agent (r : QueryResult) : String :=
  match r.response with
  | some resp => resp.agent
  | none => "none"

/-- Models `answer` accessor. -/
def answer (r : QueryResult) : String :=
  match r.response with
  | some resp => resp.answer
  | none => ""

/-- Models `source_documents` accessor. -/
def source_documents (r : QueryResult) : List SourceDocument :=
  match r.response with
  | some resp => resp.source_documents
  | none => []

/-- Models `evaluation_score` with the exception it can raise propagated:
`if self.evaluation and "evaluation" in self.evaluation and
"overall_score" in self.evaluation["evaluation"]` (the last conjunct can
raise `TypeError` when the inner value is not a container), returning the
stored value on success and `0.0` otherwise.  An empty dictionary is
falsy. -/
def evaluation_scoreE (r : QueryResult) : Except PyErr PyVal :=
  match r.evaluation with
  | none => .ok (.pyfloat 0)
  | some kvs =>
      if kvs.isEmpty then .ok (.pyfloat 0)
      else
        match pyDictGet kvs "evaluation" with
        | none => .ok (.pyfloat 0)
        | some inner =>
            match pyContainsKey inner "overall_score" with
            | .error e => .error e
            | .ok false => .ok (.pyfloat 0)
            | .ok true =>
                match inner with
                | .pydict ikvs => .ok ((pyDictGet ikvs "overall_score").getD .pynone)
                | _ => .error .typeError

end QueryResult

/-! ### src/multi_agent_system.py — MultiAgentSystem.process_query

The LLM behind `classify_intent` is an oracle `classifyLLM : String →
String` mapping the query to the raw model output text; the three domain
`answer_query` of the agents and `evaluate_response` of the evaluator are
likewise oracles. -/

/-- The routing dictionary built by `OrchestratorAgent.route_query`
(the source stores `str(classification.confidence)`; the stringification
is not inspected by any claim, so the numeric value is kept). -/
structure RoutingDict where
  intent : String
  confidence : ℚ
  reasoning : String
  route_to : String

/-- The `{"answer": …, "source_documents": …, "agent": …}` dictionary
returned by `BaseRAGAgent.answer_query` and by the general fallback. -/
structure AgentResponse where
  answer : String
  source_documents : List PyVal
  agent : String

namespace OrchestratorAgent

/-- Models `classify_intent`: LLM call followed by the output parser. -/
def classify_intent (classifyLLM : String → String) (query : String) :
    IntentClassification :=
  IntentOutputParser.parse_classification_text (classifyLLM query)

/-- Models `route_query`: classification plus the routing decision
`f"{intent}_agent"`, or `"general_response"` for the `"general"` intent. -/
def route_query (classifyLLM : String → String) (query : String) :
    RoutingDict :=
  let classification := classify_intent classifyLLM query
  { intent := classification.intent
    confidence := classification.confidence
    reasoning := classification.reasoning
    route_to :=
      if classification.intent ≠ "general" then classification.intent ++ "_agent"
      else "general_response" }

end OrchestratorAgent

/-- Models `EvaluationResult.dict()` (pydantic), as stored under the
`"evaluation"` key of the result. -/
def EvaluationResult.toPyDict (e : EvaluationResult) : PyVal :=
  .pydict
    [("relevance_score", .pyint e.relevance_score),
     ("completeness_score", .pyint e.completeness_score),
     ("accuracy_score", .pyint e.accuracy_score),
     ("overall_score", .pyint e.overall_score),
     ("reasoning", .pystr e.reasoning)]

namespace MultiAgentSystem

/-- The canned fallback response of the `else` branch of `process_query`. -/
def generalFallbackResponse : AgentResponse :=
  { answer := "I\x27m sorry, I couldn\x27t determine which department can best help you with that question. Please contact our general support team or try rephrasing your question with more specific details about whether it\x27s related to HR, IT, or Finance."
    source_documents := []
    agent := "general" }

/-- The result dictionary of `process_query`. -/
structure ProcessResult where
  query : String
  routing : RoutingDict
  response : AgentResponse
  evaluation : Option (List (String × PyVal))

/-- Models `MultiAgentSystem.process_query`: classify and route, dispatch on the
intent (`hr`/`tech`/`finance` to the matching agent, anything else to the
canned fallback), then optionally evaluate — the evaluator call is guarded
by `evaluate and response["agent"] != "general"` and its exceptions are
caught into an `{"error": …}` entry. -/
def process_query (classifyLLM : String → String)
    (hrAgent techAgent financeAgent : String → AgentResponse)
    (evaluator : String → String → String → Except PyErr EvaluationResult)
    (query : String) (evaluate : Bool) : ProcessResult :=
  let routing := OrchestratorAgent.route_query classifyLLM query
  let response :=
    if routing.intent = "hr" then hrAgent query
    else if routing.intent = "tech" then techAgent query
    else if routing.intent = "finance" then financeAgent query
    else generalFallbackResponse
  let evaluation : Option (List (String × PyVal)) :=
    if evaluate && response.agent ≠ "general" then
      match evaluator query response.answer response.agent with
      | .ok ev => some [("evaluation", ev.toPyDict)]
      | .error e =>
          some [("error", .pystr ("Evaluation failed: " ++ e.message))]
    else none
  { query := query, routing := routing, response := response,
    evaluation := evaluation }

end MultiAgentSystem

/-! ### Helper lemmas -/

theorem toNat_char_ofNat_valid {n : ℕ} (h : n < 55296) :
    (Char.ofNat n).toNat = n := by
  have hv : Nat.isValidChar n := Or.inl h
  rw [Char.ofNat, dif_pos hv]
  simp [Char.ofNatAux, Char.toNat, UInt32.toNat]

/-- Lowercasing a character never produces a colon unless the character is
a colon (A–Z map into a–z, everything else is fixed). -/
theorem toLower_eq_colon {d : Char} (h : Char.toLower d = ':') : d = ':' := by
  by_cases hrange : d.toNat ≥ 65 ∧ d.toNat ≤ 90
  · exfalso
    have h' : Char.ofNat (d.toNat + 32) = ':' := by
      rw [Char.toLower] at h
      simpa [hrange] using h
    have htop : d.toNat + 32 < 55296 := by omega
    have h2 := congrArg Char.toNat h'
    rw [toNat_char_ofNat_valid htop] at h2
    have hcolon : (':' : Char).toNat = 58 := rfl
    rw [hcolon] at h2
    omega
  · rw [Char.toLower] at h
    simpa [hrange] using h

/-- Characters of a true `listStarts` pattern occur in the searched list. -/
theorem mem_of_listStarts {pat cs : List Char} (h : listStarts pat cs = true) :
    ∀ c ∈ pat, c ∈ cs := by
  induction pat generalizing cs with
  | nil => intro c hc; cases hc
  | cons p ps ih =>
      cases cs with
      | nil => cases h
      | cons b bs =>
          rw [listStarts, Bool.and_eq_true, decide_eq_true_eq] at h
          intro c hc
          cases hc with
          | head => exact h.1 ▸ List.mem_cons_self _ _
          | tail _ hm => exact List.mem_cons_of_mem _ (ih h.2 c hm)

/-- A line whose lowercasing starts with a colon-containing label contains
a colon itself. -/
theorem hasChar_colon_of_starts {l pfx : String}
    (hp : ':' ∈ pfx.data) (h : pyStartswith (pyLower l) pfx = true) :
    hasChar ':' l = true := by
  unfold pyStartswith pyLower at h
  have hmem : ':' ∈ l.data.map Char.toLower := mem_of_listStarts h ':' hp
  rw [List.mem_map] at hmem
  obtain ⟨d, hd, hlow⟩ := hmem
  have hdc : d = ':' := toLower_eq_colon hlow
  unfold hasChar
  rw [List.any_eq_true]
  exact ⟨d, hd, by rw [hdc]; exact decide_eq_true rfl⟩

/-- Models `_extract_field`, described line-wise: the stripped and lowercased
after-colon text of the first matching line, or the default when no line
matches (for a label that contains a colon, the matched line always
contains a colon, so the `":" in line` guard in the code only selects the
default on absence). -/
theorem extract_field_eq (lines : List String) (pfx dflt : String)
    (hp : ':' ∈ pfx.data) :
    IntentOutputParser.extract_field lines pfx dflt =
      match lines.find? (fun l => pyStartswith (pyLower l) pfx) with
      | some line => pyLower (pyStrip (afterFirstColon line))
      | none => dflt := by
  unfold IntentOutputParser.extract_field
  cases hf : lines.find? (fun l => pyStartswith (pyLower l) pfx) with
  | none =>
      simp only [Option.getD_none]
      rw [if_neg (by decide)]
  | some line =>
      have hpred := List.find?_some hf
      have hc : hasChar ':' line = true := hasChar_colon_of_starts hp hpred
      simp only [Option.getD_some]
      rw [if_pos hc]

/-- The classification parser, characterized: the extracted fields when
the extracted intent passes the `Literal` validation, the fixed fallback
record otherwise. -/
theorem parse_classification_eq (text : String) :
    IntentOutputParser.parse_classification_text text =
      if extracted_intent text ∈ intentLiterals then
        ⟨extracted_intent text, extracted_confidence text, extracted_reasoning text⟩
      else IntentOutputParser.fallbackClassification := by
  by_cases h : extracted_intent text ∈ intentLiterals
  · rw [if_pos h]
    have h' : IntentOutputParser.extract_field
        (IntentOutputParser.classificationLines text) "intent:" "general"
          ∈ intentLiterals := h
    simp only [IntentOutputParser.parse_classification_text,
      IntentOutputParser.classification_try_body,
      IntentOutputParser.validateIntent, if_pos h']
    rfl
  · rw [if_neg h]
    have h' : IntentOutputParser.extract_field
        (IntentOutputParser.classificationLines text) "intent:" "general"
          ∉ intentLiterals := h
    simp only [IntentOutputParser.parse_classification_text,
      IntentOutputParser.classification_try_body,
      IntentOutputParser.validateIntent, if_neg h']

theorem getLast?_getD_cons {α : Type} (v d : α) (xs : List α) :
    ((v :: xs).getLast?).getD d = (xs.getLast?).getD v := by
  cases xs with
  | nil => rfl
  | cons w ws =>
      rw [List.getLast?_cons_cons]
      cases hw : (w :: ws).getLast? with
      | none =>
          exfalso
          rw [List.getLast?_eq_none_iff] at hw
          cases hw
      | some u => rfl

namespace EvaluationOutputParser

/-- The effect of one line on the `relevance_score` entry. -/
theorem updateLine_relevance (s : Scores) (line : String) :
    (updateLine s line).relevance_score =
      match (if pyStartswith (pyLower line) "relevance:" then
          pyInt? (pyStrip (afterFirstColon line)) else none) with
      | some v => v
      | none => s.relevance_score := by
  unfold updateLine score_types
  simp only [List.foldl_cons, List.foldl_nil]
  by_cases h1 : pyStartswith (pyLower line) "relevance:" = true <;>
    by_cases h2 : pyStartswith (pyLower line) "completeness:" = true <;>
      by_cases h3 : pyStartswith (pyLower line) "accuracy:" = true <;>
        by_cases h4 : pyStartswith (pyLower line) "overall:" = true <;>
          cases hp : pyInt? (pyStrip (afterFirstColon line)) <;>
            simp [h1, h2, h3, h4, hp, setScore]

/-- The effect of one line on the `completeness_score` entry. -/
theorem updateLine_completeness (s : Scores) (line : String) :
    (updateLine s line).completeness_score =
      match (if pyStartswith (pyLower line) "completeness:" then
          pyInt? (pyStrip (afterFirstColon line)) else none) with
      | some v => v
      | none => s.completeness_score := by
  unfold updateLine score_types
  simp only [List.foldl_cons, List.foldl_nil]
  by_cases h1 : pyStartswith (pyLower line) "relevance:" = true <;>
    by_cases h2 : pyStartswith (pyLower line) "completeness:" = true <;>
      by_cases h3 : pyStartswith (pyLower line) "accuracy:" = true <;>
        by_cases h4 : pyStartswith (pyLower line) "overall:" = true <;>
          cases hp : pyInt? (pyStrip (afterFirstColon line)) <;>
            simp [h1, h2, h3, h4, hp, setScore]

/-- The effect of one line on the `accuracy_score` entry. -/
theorem updateLine_accuracy (s : Scores) (line : String) :
    (updateLine s line).accuracy_score =
      match (if pyStartswith (pyLower line) "accuracy:" then
          pyInt? (pyStrip (afterFirstColon line)) else none) with
      | some v => v
      | none => s.accuracy_score := by
  unfold updateLine score_types
  simp only [List.foldl_cons, List.foldl_nil]
  by_cases h1 : pyStartswith (pyLower line) "relevance:" = true <;>
    by_cases h2 : pyStartswith (pyLower line) "completeness:" = true <;>
      by_cases h3 : pyStartswith (pyLower line) "accuracy:" = true <;>
        by_cases h4 : pyStartswith (pyLower line) "overall:" = true <;>
          cases hp : pyInt? (pyStrip (afterFirstColon line)) <;>
            simp [h1, h2, h3, h4, hp, setScore]

/-- The effect of one line on the `overall_score` entry. -/
theorem updateLine_overall (s : Scores) (line : String) :
    (updateLine s line).overall_score =
      match (if pyStartswith (pyLower line) "overall:" then
          pyInt? (pyStrip (afterFirstColon line)) else none) with
      | some v => v
      | none => s.overall_score := by
  unfold updateLine score_types
  simp only [List.foldl_cons, List.foldl_nil]
  by_cases h1 : pyStartswith (pyLower line) "relevance:" = true <;>
    by_cases h2 : pyStartswith (pyLower line) "completeness:" = true <;>
      by_cases h3 : pyStartswith (pyLower line) "accuracy:" = true <;>
        by_cases h4 : pyStartswith (pyLower line) "overall:" = true <;>
          cases hp : pyInt? (pyStrip (afterFirstColon line)) <;>
            simp [h1, h2, h3, h4, hp, setScore]

/-- The score fold for the `relevance_score` entry: the last successfully parsed
`relevance:` value, defaulting to the initial entry. -/
theorem foldl_updateLine_relevance (lines : List String) :
    ∀ s : Scores, (lines.foldl updateLine s).relevance_score =
      ((labeledInts "relevance" lines).getLast?).getD s.relevance_score := by
  induction lines with
  | nil => intro s; simp [labeledInts]
  | cons l ls ih =>
      intro s
      rw [List.foldl_cons, ih, updateLine_relevance]
      simp only [labeledInts, List.filterMap_cons]
      simp only [show (("relevance" ++ ":" : String)) = "relevance:" from rfl]
      cases hopt : (if pyStartswith (pyLower l) "relevance:" then
          pyInt? (pyStrip (afterFirstColon l)) else none) with
      | none => simp
      | some v => simp [getLast?_getD_cons]

/-- The score fold for the `completeness_score` entry: the last successfully parsed
`completeness:` value, defaulting to the initial entry. -/
theorem foldl_updateLine_completeness (lines : List String) :
    ∀ s : Scores, (lines.foldl updateLine s).completeness_score =
      ((labeledInts "completeness" lines).getLast?).getD s.completeness_score := by
  induction lines with
  | nil => intro s; simp [labeledInts]
  | cons l ls ih =>
      intro s
      rw [List.foldl_cons, ih, updateLine_completeness]
      simp only [labeledInts, List.filterMap_cons]
      simp only [show (("completeness" ++ ":" : String)) = "completeness:" from rfl]
      cases hopt : (if pyStartswith (pyLower l) "completeness:" then
          pyInt? (pyStrip (afterFirstColon l)) else none) with
      | none => simp
      | some v => simp [getLast?_getD_cons]

/-- The score fold for the `accuracy_score` entry: the last successfully parsed
`accuracy:` value, defaulting to the initial entry. -/
theorem foldl_updateLine_accuracy (lines : List String) :
    ∀ s : Scores, (lines.foldl updateLine s).accuracy_score =
      ((labeledInts "accuracy" lines).getLast?).getD s.accuracy_score := by
  induction lines with
  | nil => intro s; simp [labeledInts]
  | cons l ls ih =>
      intro s
      rw [List.foldl_cons, ih, updateLine_accuracy]
      simp only [labeledInts, List.filterMap_cons]
      simp only [show (("accuracy" ++ ":" : String)) = "accuracy:" from rfl]
      cases hopt : (if pyStartswith (pyLower l) "accuracy:" then
          pyInt? (pyStrip (afterFirstColon l)) else none) with
      | none => simp
      | some v => simp [getLast?_getD_cons]

/-- The score fold for the `overall_score` entry: the last successfully parsed
`overall:` value, defaulting to the initial entry. -/
theorem foldl_updateLine_overall (lines : List String) :
    ∀ s : Scores, (lines.foldl updateLine s).overall_score =
      ((labeledInts "overall" lines).getLast?).getD s.overall_score := by
  induction lines with
  | nil => intro s; simp [labeledInts]
  | cons l ls ih =>
      intro s
      rw [List.foldl_cons, ih, updateLine_overall]
      simp only [labeledInts, List.filterMap_cons]
      simp only [show (("overall" ++ ":" : String)) = "overall:" from rfl]
      cases hopt : (if pyStartswith (pyLower l) "overall:" then
          pyInt? (pyStrip (afterFirstColon l)) else none) with
      | none => simp
      | some v => simp [getLast?_getD_cons]

end EvaluationOutputParser

/-! ### Claim theorems -/

/-- C1, counterexample: on `"Intent: banana\nConfidence: 1\nReasoning: ok"`
the intent value is malformed (outside the closed set) while the
confidence and reasoning fields are well-formed, yet the parser returns the
all-or-nothing fallback record, discarding the well-formed fields — so
substitution is not per individual field. -/
theorem C1_counterexample :
    IntentOutputParser.parse_classification_text
        "Intent: banana\nConfidence: 1\nReasoning: ok"
      = IntentOutputParser.fallbackClassification
    ∧ extracted_reasoning "Intent: banana\nConfidence: 1\nReasoning: ok" = "ok"
    ∧ extracted_confidence "Intent: banana\nConfidence: 1\nReasoning: ok" = 1 := by
  refine ⟨by decide, by decide, by decide⟩

/-- C1, amended: the evaluation parser substitutes defaults per individual
field; the intent parser does so for missing fields and malformed
confidence values, but when an intent value is present and outside the
closed set, record validation fails and the parser returns the fixed
all-or-nothing fallback record, discarding the other parsed fields. -/
theorem C1_field_by_field (text : String) :
    (extracted_intent text ∈ intentLiterals →
      IntentOutputParser.parse_classification_text text
        = ⟨extracted_intent text, extracted_confidence text, extracted_reasoning text⟩)
    ∧ (extracted_intent text ∉ intentLiterals →
      IntentOutputParser.parse_classification_text text
        = IntentOutputParser.fallbackClassification)
    ∧ EvaluationOutputParser.parse_evaluation_text text
        = ⟨(EvaluationOutputParser.extract_scores
              (EvaluationOutputParser.evaluationLines text)).relevance_score,
           (EvaluationOutputParser.extract_scores
              (EvaluationOutputParser.evaluationLines text)).completeness_score,
           (EvaluationOutputParser.extract_scores
              (EvaluationOutputParser.evaluationLines text)).accuracy_score,
           (EvaluationOutputParser.extract_scores
              (EvaluationOutputParser.evaluationLines text)).overall_score,
           EvaluationOutputParser.extract_reasoning
             (EvaluationOutputParser.evaluationLines text)⟩ := by
  refine ⟨fun h => ?_, fun h => ?_, rfl⟩
  · rw [parse_classification_eq, if_pos h]
  · rw [parse_classification_eq, if_neg h]

/-- Witness for C1_field_by_field at concrete inputs. -/
theorem C1_field_by_field_witness :
    IntentOutputParser.parse_classification_text
        "Intent: hr\nConfidence: 0.9\nReasoning: Benefits"
      = ⟨extracted_intent "Intent: hr\nConfidence: 0.9\nReasoning: Benefits",
         extracted_confidence "Intent: hr\nConfidence: 0.9\nReasoning: Benefits",
         extracted_reasoning "Intent: hr\nConfidence: 0.9\nReasoning: Benefits"⟩
    ∧ IntentOutputParser.parse_classification_text "Intent: nonsense"
      = IntentOutputParser.fallbackClassification :=
  ⟨(C1_field_by_field "Intent: hr\nConfidence: 0.9\nReasoning: Benefits").1 (by decide),
   (C1_field_by_field "Intent: nonsense").2.1 (by decide)⟩

/-- C2, counterexample: on `"Intent: banana\nConfidence: 0.9"` the intent
parser does not raise, but it degrades to the fallback confidence 0.1,
which is neither the extracted value 0.9 nor the documented default 0.5. -/
theorem C2_counterexample :
    (IntentOutputParser.parse_classification_text
        "Intent: banana\nConfidence: 0.9").confidence = mkRat 1 10
    ∧ extracted_confidence "Intent: banana\nConfidence: 0.9" = mkRat 9 10
    ∧ mkRat 1 10 ≠ mkRat 1 2
    ∧ mkRat 1 10 ≠ mkRat 9 10 := by
  refine ⟨by decide, by decide, by decide, by decide⟩

/-- C2, amended: neither parser ever lets an exception escape — the
exception-propagating versions always return `.ok` with the record of the
total parse functions (the failure branch of the intent parser yields the fixed
fallback record rather than the per-field documented defaults). -/
theorem C2_parsers_never_raise (text : String) :
    IntentOutputParser.parse_classification_textE text
      = Except.ok (IntentOutputParser.parse_classification_text text)
    ∧ EvaluationOutputParser.parse_evaluation_textE text
      = Except.ok (EvaluationOutputParser.parse_evaluation_text text) := by
  constructor
  · unfold IntentOutputParser.parse_classification_textE
      IntentOutputParser.parse_classification_text
    cases IntentOutputParser.classification_try_body text <;> rfl
  · rfl

/-- C3: the parsed intent is always a member of the closed set
{hr, tech, finance, general}; it equals the extracted (stripped,
lowercased) intent value when that value is in the set, and it is
"general" whenever the extracted value is absent (the extraction then
defaults to "general") or outside the set. -/
theorem C3_intent_in_closed_set (text : String) :
    (IntentOutputParser.parse_classification_text text).intent ∈ intentLiterals
    ∧ (extracted_intent text ∈ intentLiterals →
        (IntentOutputParser.parse_classification_text text).intent
          = extracted_intent text)
    ∧ (extracted_intent text ∉ intentLiterals →
        (IntentOutputParser.parse_classification_text text).intent = "general") := by
  rw [parse_classification_eq]
  by_cases h : extracted_intent text ∈ intentLiterals
  · rw [if_pos h]
    exact ⟨h, fun _ => rfl, fun hc => absurd h hc⟩
  · rw [if_neg h]
    exact ⟨by decide, fun hc => absurd hc h, fun _ => rfl⟩

/-- Witness for C3_intent_in_closed_set at concrete inputs. -/
theorem C3_intent_in_closed_set_witness :
    (IntentOutputParser.parse_classification_text "Intent: tech").intent = "tech"
    ∧ (IntentOutputParser.parse_classification_text "Intent: banana").intent
        = "general" :=
  ⟨((C3_intent_in_closed_set "Intent: tech").2.1 (by decide)).trans (by decide),
   (C3_intent_in_closed_set "Intent: banana").2.2 (by decide)⟩

/-- C4, counterexample: on `"Confidence: 2"` the confidence line parses as
the number 2, which the parser returns unchecked — the parsed confidence
does not lie in [0, 1]. -/
theorem C4_counterexample :
    (IntentOutputParser.parse_classification_text "Confidence: 2").confidence = 2
    ∧ ¬ (IntentOutputParser.parse_classification_text "Confidence: 2").confidence ≤ 1 := by
  refine ⟨by decide, by decide⟩

/-- C4, amended: when the record passes intent validation, the confidence
field is exactly the number parsed from the confidence line — with no
[0, 1] range check — and 0.5 when the line is absent or its value fails to
parse as a number. -/
theorem C4_confidence (text : String)
    (hv : extracted_intent text ∈ intentLiterals) :
    (IntentOutputParser.parse_classification_text text).confidence
      = match pyFloat? (confidence_str_of text) with
        | some q => q
        | none => mkRat 1 2 := by
  rw [parse_classification_eq, if_pos hv]
  rfl

/-- Witness for C4_confidence at a concrete input. -/
theorem C4_confidence_witness :
    (IntentOutputParser.parse_classification_text "Confidence: 0.75").confidence
      = match pyFloat? (confidence_str_of "Confidence: 0.75") with
        | some q => q
        | none => mkRat 1 2 :=
  C4_confidence "Confidence: 0.75" (by decide)

/-- C5, counterexample: on `"Intent: hr\nReasoning: HELLO World"` the
value `"HELLO World"` of the reasoning line is returned lowercased (and
stripped), not unchanged. -/
theorem C5_counterexample :
    (IntentOutputParser.parse_classification_text
        "Intent: hr\nReasoning: HELLO World").reasoning = "hello world"
    ∧ "hello world" ≠ "HELLO World" := by
  refine ⟨by decide, by decide⟩

/-- C5, amended: when the record passes intent validation, the reasoning
field is the after-colon text of the first reasoning-labeled line,
whitespace-stripped and lowercased (not unchanged), and the placeholder
default when no reasoning line is present. -/
theorem C5_reasoning (text : String)
    (hv : extracted_intent text ∈ intentLiterals) :
    (IntentOutputParser.parse_classification_text text).reasoning
      = match (IntentOutputParser.classificationLines text).find?
            (fun l => pyStartswith (pyLower l) "reasoning:") with
        | some line => pyLower (pyStrip (afterFirstColon line))
        | none => "Unable to determine reasoning" := by
  rw [parse_classification_eq, if_pos hv]
  exact extract_field_eq (IntentOutputParser.classificationLines text)
    "reasoning:" "Unable to determine reasoning" (by decide)

/-- Witness for C5_reasoning at a concrete input. -/
theorem C5_reasoning_witness :
    (IntentOutputParser.parse_classification_text
        "Intent: hr\nReasoning: HELLO World").reasoning
      = match (IntentOutputParser.classificationLines
            "Intent: hr\nReasoning: HELLO World").find?
            (fun l => pyStartswith (pyLower l) "reasoning:") with
        | some line => pyLower (pyStrip (afterFirstColon line))
        | none => "Unable to determine reasoning" :=
  C5_reasoning "Intent: hr\nReasoning: HELLO World" (by decide)

/-- C6: each of the four evaluation scores equals the integer of the last
successfully parsing line labeled with its score type (in particular the
integer of its labeled line when unique), and is 5 when no such line
parses — absence or an unparsable value leaves the individual default in
place; the reasoning field is the stripped after-colon text of the first
reasoning-labeled line, with a default on absence. -/
theorem C6_evaluation_scores (text : String) :
    (EvaluationOutputParser.parse_evaluation_text text).relevance_score
      = ((EvaluationOutputParser.labeledInts "relevance"
            (EvaluationOutputParser.evaluationLines text)).getLast?).getD 5
    ∧ (EvaluationOutputParser.parse_evaluation_text text).completeness_score
      = ((EvaluationOutputParser.labeledInts "completeness"
            (EvaluationOutputParser.evaluationLines text)).getLast?).getD 5
    ∧ (EvaluationOutputParser.parse_evaluation_text text).accuracy_score
      = ((EvaluationOutputParser.labeledInts "accuracy"
            (EvaluationOutputParser.evaluationLines text)).getLast?).getD 5
    ∧ (EvaluationOutputParser.parse_evaluation_text text).overall_score
      = ((EvaluationOutputParser.labeledInts "overall"
            (EvaluationOutputParser.evaluationLines text)).getLast?).getD 5
    ∧ (EvaluationOutputParser.parse_evaluation_text text).reasoning
      = (match (EvaluationOutputParser.evaluationLines text).find?
            (fun l => pyStartswith (pyLower l) "reasoning:") with
         | some line => pyStrip (afterFirstColon line)
         | none => "No reasoning provided") := by
  refine ⟨?_, ?_, ?_, ?_, rfl⟩
  · exact EvaluationOutputParser.foldl_updateLine_relevance
      (EvaluationOutputParser.evaluationLines text) EvaluationOutputParser.initScores
  · exact EvaluationOutputParser.foldl_updateLine_completeness
      (EvaluationOutputParser.evaluationLines text) EvaluationOutputParser.initScores
  · exact EvaluationOutputParser.foldl_updateLine_accuracy
      (EvaluationOutputParser.evaluationLines text) EvaluationOutputParser.initScores
  · exact EvaluationOutputParser.foldl_updateLine_overall
      (EvaluationOutputParser.evaluationLines text) EvaluationOutputParser.initScores

/-- C7: a query result is successful exactly when routing information is
present and the (safe) answer is non-empty; when the response is absent
the safe answer is empty, so the flag is false whenever routing is absent,
the response is absent, or the answer is the empty string. -/
theorem C7_is_successful (r : QueryResult) :
    r.is_successful = (r.routing.isSome && !(r.answer).isEmpty) := by
  rcases r with ⟨q, routing, response, ev⟩
  cases routing <;> cases response <;> rfl

/-- C8: the intent/confidence/agent/answer/source-document accessors are
total with the documented safe defaults, and the evaluation-score accessor
returns 0 when no evaluation occurred or evaluation failed — but it is not
total: on `evaluation = {"evaluation": None}` the membership test
`"overall_score" in None` raises `TypeError`, contradicting the safe-access
contract stated in the accessor doc string. -/
theorem C8_safe_accessors :
    (∀ (q : String) (ev : Option (List (String × PyVal))),
        (QueryResult.mk q none none ev).intent = "unknown"
        ∧ (QueryResult.mk q none none ev).confidence = 0
        ∧ (QueryResult.mk q none none ev).agent = "none"
        ∧ (QueryResult.mk q none none ev).answer = ""
        ∧ (QueryResult.mk q none none ev).source_documents = [])
    ∧ (∀ q : String,
        (QueryResult.mk q none none none).evaluation_scoreE
          = Except.ok (PyVal.pyfloat 0))
    ∧ (∀ q msg : String,
        (QueryResult.mk q none none
            (some [("error", PyVal.pystr msg)])).evaluation_scoreE
          = Except.ok (PyVal.pyfloat 0))
    ∧ (QueryResult.mk "q" none none
          (some [("evaluation", PyVal.pynone)])).evaluation_scoreE
        = Except.error PyErr.typeError :=
  ⟨fun _ _ => ⟨rfl, rfl, rfl, rfl, rfl⟩, fun _ => rfl, fun _ _ => rfl, rfl⟩

/-- C9: process_query dispatches on the classified intent — hr, tech and
finance to the matching agent, anything else to the canned fallback whose
agent is "general" and whose source list is empty — and the routing
route_to of the routing record is intent_agent for a non-general intent and
"general_response" for the general intent. -/
theorem C9_dispatch (classifyLLM : String → String)
    (hrAgent techAgent financeAgent : String → AgentResponse)
    (evaluator : String → String → String → Except PyErr EvaluationResult)
    (query : String) (evaluate : Bool) :
    (MultiAgentSystem.process_query classifyLLM hrAgent techAgent financeAgent
        evaluator query evaluate).response
      = (if (OrchestratorAgent.route_query classifyLLM query).intent = "hr" then
          hrAgent query
        else if (OrchestratorAgent.route_query classifyLLM query).intent = "tech" then
          techAgent query
        else if (OrchestratorAgent.route_query classifyLLM query).intent = "finance" then
          financeAgent query
        else MultiAgentSystem.generalFallbackResponse)
    ∧ MultiAgentSystem.generalFallbackResponse.agent = "general"
    ∧ MultiAgentSystem.generalFallbackResponse.source_documents = []
    ∧ (MultiAgentSystem.process_query classifyLLM hrAgent techAgent financeAgent
        evaluator query evaluate).routing.route_to
      = (if (MultiAgentSystem.process_query classifyLLM hrAgent techAgent financeAgent
            evaluator query evaluate).routing.intent = "general" then
          "general_response"
        else (MultiAgentSystem.process_query classifyLLM hrAgent techAgent financeAgent
            evaluator query evaluate).routing.intent ++ "_agent") := by
  refine ⟨rfl, rfl, rfl, ?_⟩
  show (OrchestratorAgent.route_query classifyLLM query).route_to = _
  have hri : (MultiAgentSystem.process_query classifyLLM hrAgent techAgent
      financeAgent evaluator query evaluate).routing.intent
        = (OrchestratorAgent.classify_intent classifyLLM query).intent := rfl
  rw [hri]
  unfold OrchestratorAgent.route_query
  by_cases h : (OrchestratorAgent.classify_intent classifyLLM query).intent = "general"
  · simp [h]
  · simp [h]

/-- C10: when the classified intent is not hr, tech or finance, the canned
general fallback answers the query, the evaluator is never invoked (the
result does not depend on the evaluator oracle at all) and the evaluation
field stays None — even with evaluate=True. -/
theorem C10_general_no_evaluation (classifyLLM : String → String)
    (hrAgent techAgent financeAgent : String → AgentResponse)
    (ev1 ev2 : String → String → String → Except PyErr EvaluationResult)
    (query : String) (evaluate : Bool)
    (h : (OrchestratorAgent.route_query classifyLLM query).intent ∉
        (["hr", "tech", "finance"] : List String)) :
    (MultiAgentSystem.process_query classifyLLM hrAgent techAgent financeAgent ev1
        query evaluate).evaluation = none
    ∧ MultiAgentSystem.process_query classifyLLM hrAgent techAgent financeAgent ev1
        query evaluate
      = MultiAgentSystem.process_query classifyLLM hrAgent techAgent financeAgent ev2
        query evaluate := by
  simp only [List.mem_cons, List.not_mem_nil, or_false, not_or] at h
  obtain ⟨h1, h2, h3⟩ := h
  unfold MultiAgentSystem.process_query
  simp only [if_neg h1, if_neg h2, if_neg h3]
  constructor
  · simp [MultiAgentSystem.generalFallbackResponse]
  · simp [MultiAgentSystem.generalFallbackResponse]

/-- Witness for C10_general_no_evaluation at concrete oracles. -/
theorem C10_general_no_evaluation_witness :
    (MultiAgentSystem.process_query (fun _ => "Intent: general")
        (fun _ => ⟨"a", [], "hr_agent"⟩) (fun _ => ⟨"a", [], "tech_agent"⟩)
        (fun _ => ⟨"a", [], "finance_agent"⟩)
        (fun _ _ _ => Except.error PyErr.valueError)
        "hello" true).evaluation = none :=
  (C10_general_no_evaluation (fun _ => "Intent: general")
      (fun _ => ⟨"a", [], "hr_agent"⟩) (fun _ => ⟨"a", [], "tech_agent"⟩)
      (fun _ => ⟨"a", [], "finance_agent"⟩)
      (fun _ _ _ => Except.error PyErr.valueError)
      (fun _ _ _ => Except.error PyErr.typeError)
      "hello" true (by decide)).1
